import Mathlib

/-
  Verification of the CLI resume-screening chatbot client (main.py).

  The program has two components:
  - handle_user_message (the "Turn Handler", main.py lines 41-67): drives one
    user utterance through the agent, printing a transcript of streamed
    progress events, then awaits and returns the final answer.
  - main (the "Session Loop", main.py lines 97-131): bootstraps the agent via
    build_agent, then runs a read-eval-print loop until exit/quit, EOF,
    interrupt, or an escaping exception.

  Console output is modelled as the exact character sequences written:
  Python print(s) writes s followed by a newline; print(s, end="") writes s
  with no newline. The agent is external; its behaviour during one turn is
  modelled as the finite stream of events it yields (which may end by raising
  an exception) plus the deferred final answer.
-/

namespace ResumeClient

/-- Python print with default end: writes the argument followed by a newline. -/
def printLine (s : String) : String := s ++ "\n"

/-- The progress events dispatched on in handle_user_message (main.py lines
53-64): ToolCall carries tool_name and tool_kwargs (the kwargs field is kept
in its rendered string form, as interpolated by the f-string on line 56);
ToolCallResult carries tool_name and str(event.tool_output); AgentStream
carries the delta text fragment. Events of any other type fall through every
isinstance test and produce no output. -/
inductive Event where
  | toolCall (tool_name : String) (tool_kwargs : String)
  | agentStream (delta : String)
  | toolCallResult (tool_name : String) (tool_output : String)
  | otherEvent
deriving DecidableEq

/-- Lines 61-63 of main.py: the rendered tool output is cut to its first 250
characters with "..." appended when strictly longer than 250 characters, and
is left untouched otherwise. -/
def shortenToolOutput (tool_output_str : String) : String :=
  if tool_output_str.length > 250 then tool_output_str.take 250 ++ "..." else tool_output_str

/-- The characters printed for one event by the loop body of
handle_user_message (main.py lines 54-64). ToolCall and ToolCallResult lines
are printed only when verbose; the AgentStream delta is always printed, via
print(..., end="", flush=True), so without a trailing newline. -/
def eventOutput (verbose : Bool) (e : Event) : String :=
  match e with
  | Event.toolCall tool_name tool_kwargs =>
      if verbose then
        printLine ("\n🔧 Calling tool \x27" ++ tool_name ++ "\x27 with " ++ tool_kwargs)
      else ""
  | Event.agentStream delta => delta
  | Event.toolCallResult tool_name tool_output =>
      if verbose then
        printLine ("✅ Tool \x27" ++ tool_name ++ "\x27 returned: " ++ shortenToolOutput tool_output)
      else ""
  | Event.otherEvent => ""

/-- One item of the live event stream returned by agent.run: either the next
yielded event, or an exception raised while producing it. -/
inductive StreamItem where
  | yielded (e : Event)
  | raised (err : String)
deriving DecidableEq

/-- Observable actions of one run of handle_user_message, in order: console
writes, and the final await of the handler (line 66). -/
inductive TurnObs where
  | printed (s : String)
  | awaitedResult
deriving DecidableEq

/-- The async-for loop of handle_user_message (lines 53-64): consume stream
items in order, printing each yielded event's output; an exception raised by
the stream propagates at once (there is no try/except in the function), so
consumption stops and the error is reported to the caller. Returns the
ordered observations together with the error, if one was raised. -/
def consumeEvents (verbose : Bool) : List StreamItem → List TurnObs × Option String
  | [] => ([], none)
  | StreamItem.yielded e :: rest =>
      let r := consumeEvents verbose rest
      (TurnObs.printed (eventOutput verbose e) :: r.1, r.2)
  | StreamItem.raised err :: _ => ([], some err)

/-- handle_user_message (main.py lines 41-67): stream all events, then await
the handler for the final answer and return str(answer). The final answer is
itself a deferred outcome that may raise; any exception (from the stream or
from the await) propagates to the caller, and no result is returned for a
failed turn. The first component is the ordered list of observations, the
second the returned string or the escaping exception. -/
def handle_user_message (verbose : Bool) (stream : List StreamItem)
    (answer : Except String String) : List TurnObs × Except String String :=
  let c := consumeEvents verbose stream
  match c.2 with
  | some err => (c.1, Except.error err)
  | none =>
      match answer with
      | Except.error err => (c.1 ++ [TurnObs.awaitedResult], Except.error err)
      | Except.ok a => (c.1 ++ [TurnObs.awaitedResult], Except.ok a)

/-- Text written to the console by an observation. -/
def obsText : TurnObs → String
  | TurnObs.printed s => s
  | TurnObs.awaitedResult => ""

/-- The full console transcript of a turn: concatenation, in order, of
everything printed. -/
def turnTranscript : List TurnObs → String
  | [] => ""
  | o :: rest => obsText o ++ turnTranscript rest

/-- Concatenation of a list of strings in order. -/
def concatAll : List String → String
  | [] => ""
  | s :: rest => s ++ concatAll rest

/-- The outcome of one call to input() at the prompt (main.py line 116):
a line of text, end-of-input (EOFError), or an interrupt (KeyboardInterrupt). -/
inductive ReadResult where
  | line (s : String)
  | eof
  | interrupt
deriving DecidableEq

/-- Observable actions of the Session Loop: console writes, a call to
input(), the invocation of handle_user_message on an utterance (with the
turn's own observations nested), normal return from main, and an unhandled
exception escaping main. -/
inductive SessionEvent where
  | printed (s : String)
  | readInput
  | turn (utterance : String) (obs : List TurnObs)
  | exited
  | crashed (err : String)
deriving DecidableEq

/-- Whether a session event is a console write. -/
def isPrintedEvent : SessionEvent → Bool
  | SessionEvent.printed _ => true
  | _ => false

/-- Python str.lower(), applied character by character (the exit/quit
comparison only involves ASCII, where Python and this per-character
lowercasing agree). -/
def lowerStr (s : String) : String := String.mk (s.data.map Char.toLower)

/-- Line 117 of main.py: user_msg.lower() in the set containing exit and
quit. An exact match on the lowercased line; no whitespace is stripped. -/
def isExitLine (user_msg : String) : Bool :=
  lowerStr user_msg == "exit" || lowerStr user_msg == "quit"

/-- The agent's behaviour for the k-th processed turn of a session: the event
stream it yields and its deferred final answer. -/
def TurnOracle : Type := Nat → List StreamItem × Except String String

/-- The REPL while-loop of main (main.py lines 114-131). The script lists the
successive outcomes of input(); reading past the end of the script is
end-of-input, which input() reports by raising EOFError, caught on line 126.
Per iteration: read a line; on EOFError or KeyboardInterrupt print the
Exiting notice and break; if the lowercased line is exit or quit, break with
no print; otherwise print the Agent prefix (no newline), run
handle_user_message with verbose=True, and on success print a bare newline
separator and continue, while an exception escaping the turn is caught on
line 129, its detail printed, and the loop broken. -/
def replLoop (turns : TurnOracle) : List ReadResult → Nat → List SessionEvent
  | [], _ =>
      [SessionEvent.readInput, SessionEvent.printed (printLine ("\nExiting...")),
       SessionEvent.exited]
  | r :: rest, k =>
      match r with
      | ReadResult.eof =>
          [SessionEvent.readInput, SessionEvent.printed (printLine ("\nExiting...")),
           SessionEvent.exited]
      | ReadResult.interrupt =>
          [SessionEvent.readInput, SessionEvent.printed (printLine ("\nExiting...")),
           SessionEvent.exited]
      | ReadResult.line s =>
          if isExitLine s then [SessionEvent.readInput, SessionEvent.exited]
          else
            let t := handle_user_message true (turns k).1 (turns k).2
            SessionEvent.readInput :: SessionEvent.printed ("Agent: ") ::
            SessionEvent.turn s t.1 ::
            (match t.2 with
             | Except.ok _reply =>
                 SessionEvent.printed (printLine ("\n")) :: replLoop turns rest (k + 1)
             | Except.error err =>
                 [SessionEvent.printed (printLine ("\nAn error occurred: " ++ err)),
                  SessionEvent.exited])

/-- Names in scope when the except-branch of main's bootstrap runs (main.py
lines 103-107): the module-level bindings of main.py plus the bound exception
name e. The assignment of mcp_server_url on line 100 is commented out, so no
binding of that name exists. -/
def exceptScopeNames : List String :=
  ["asyncio", "dotenv", "AgentStream", "FunctionAgent", "ReActAgent", "OpenAI",
   "ToolCall", "ToolCallResult", "Context", "BasicMCPClient", "McpToolSpec",
   "get_tools_from_mcp_url", "aget_tools_from_mcp_url", "llm", "SYSTEM_PROMPT",
   "handle_user_message", "build_agent", "main", "e"]

/-- Python name resolution: a name evaluates to its binding when one is in
scope (only definedness matters here, so the rendered binding is the name
itself), and raises NameError otherwise. -/
def evalName (scope : List String) (n : String) : Except String String :=
  if scope.contains n then Except.ok n
  else Except.error ("NameError: name \x27" ++ n ++ "\x27 is not defined")

/-- The except-branch of main's bootstrap (main.py lines 103-107). Its first
statement interpolates the name mcp_server_url into an f-string; evaluating
that name resolves it in the enclosing scope. When resolution fails, the
NameError propagates out of the handler before anything is printed; otherwise
the three diagnostic lines are printed and main returns. -/
def startupExceptHandler (e : String) : Except String (List String) :=
  match evalName exceptScopeNames ("mcp_server_url") with
  | Except.error err => Except.error err
  | Except.ok url =>
      Except.ok
        [printLine ("\n❌ Failed to connect to MCP server at \x27" ++ url ++ "\x27."),
         printLine ("   Please ensure the server is running and accessible."),
         printLine ("   Error details: " ++ e)]

/-- The two banner lines printed once bootstrap succeeds (main.py lines
112-113), before the first input() call. -/
def bannerEvents : List SessionEvent :=
  [SessionEvent.printed (printLine ("\n▶️  Type \x27exit\x27 or Ctrl‑C to quit.")),
   SessionEvent.printed
     (printLine ("📄 Resume screening assistant initialized. Ask me to analyze a resume from a URL."))]

/-- main (main.py lines 97-131). The startup argument abstracts the awaited
build_agent call (including its own connecting/fetched prints, which happen
inside it): ok on success, or the exception it raised. On failure, the
except-branch runs (and itself crashes on the undefined name); on success the
banners are printed and the REPL runs. -/
def mainRun (startup : Except String Unit) (turns : TurnOracle)
    (script : List ReadResult) : List SessionEvent :=
  match startup with
  | Except.error e =>
      match startupExceptHandler e with
      | Except.error crash => [SessionEvent.crashed crash]
      | Except.ok lines => lines.map SessionEvent.printed ++ [SessionEvent.exited]
  | Except.ok _ => bannerEvents ++ replLoop turns script 0

/-- A turn oracle whose every turn yields no events and answers with the
empty string; used to instantiate closed statements about the Session Loop. -/
def trivialTurns : TurnOracle := fun _ => ([], Except.ok "")

/-- A turn oracle whose every turn raises an exception from the event stream
before yielding any event; used to instantiate closed statements about the
failure path of the Session Loop. -/
def failingTurns : TurnOracle := fun _ => ([StreamItem.raised ("boom")], Except.ok (""))

/-- A 251-character string, one character past the truncation threshold. -/
def longOutput : String := String.mk (List.replicate 251 "a".front)

end ResumeClient

namespace ResumeClient

/-- Consuming a stream in which every item is a yielded event prints each
event's output in emission order and raises nothing. -/
theorem consumeEvents_yielded (verbose : Bool) (events : List Event) :
    consumeEvents verbose (events.map StreamItem.yielded)
      = (events.map (fun e => TurnObs.printed (eventOutput verbose e)), none) := by
  induction events with
  | nil => rfl
  | cons e rest ih => simp [consumeEvents, ih]

/-- Consuming a stream that raises after a list of yielded events prints the
outputs of exactly those events, in order, and propagates the error. -/
theorem consumeEvents_raised (verbose : Bool) (pre : List Event) (err : String)
    (tail : List StreamItem) :
    consumeEvents verbose (pre.map StreamItem.yielded ++ StreamItem.raised err :: tail)
      = (pre.map (fun e => TurnObs.printed (eventOutput verbose e)), some err) := by
  induction pre with
  | nil => rfl
  | cons e rest ih => simp [consumeEvents, ih]

/-- The transcript of a turn consisting only of delta events is the
concatenation of the deltas. -/
theorem turnTranscript_deltas (verbose : Bool) (ds : List String) :
    turnTranscript
        ((ds.map Event.agentStream).map (fun e => TurnObs.printed (eventOutput verbose e))
          ++ [TurnObs.awaitedResult])
      = concatAll ds := by
  induction ds with
  | nil => simp [turnTranscript, obsText, concatAll]
  | cons d rest ih =>
      simp only [List.map_cons, List.cons_append, turnTranscript, obsText, List.append_eq]
      rw [ih]
      rfl

/-- C3: for every verbosity, every finite event sequence and every answer,
handle_user_message prints the events in emission order and in full, observes
the awaited Turn Result only after the last event, and returns the string
form of that result. -/
theorem turn_streams_in_order_then_returns (verbose : Bool) (events : List Event)
    (answer : String) :
    handle_user_message verbose (events.map StreamItem.yielded) (Except.ok answer)
      = (events.map (fun e => TurnObs.printed (eventOutput verbose e))
           ++ [TurnObs.awaitedResult],
         Except.ok answer) := by
  simp [handle_user_message, consumeEvents_yielded]

/-- C4: an Output Delta fragment is printed verbatim with no trailing newline
regardless of the verbosity flag, and a turn whose events are exactly a list
of delta fragments has as transcript their concatenation in emission order
with no separators. -/
theorem output_delta_verbatim (verbose : Bool) (d : String) (ds : List String)
    (answer : String) :
    eventOutput verbose (Event.agentStream d) = d ∧
    turnTranscript
        (handle_user_message verbose ((ds.map Event.agentStream).map StreamItem.yielded)
          (Except.ok answer)).1
      = concatAll ds := by
  refine ⟨rfl, ?_⟩
  have h : (handle_user_message verbose ((ds.map Event.agentStream).map StreamItem.yielded)
        (Except.ok answer)).1
      = (ds.map Event.agentStream).map (fun e => TurnObs.printed (eventOutput verbose e))
          ++ [TurnObs.awaitedResult] := by
    simp [handle_user_message, consumeEvents_yielded, -List.map_map]
  rw [h]
  exact turnTranscript_deltas verbose ds

/-- C2: with verbosity enabled, a Tool-Call Result whose rendered output has
at most 250 characters is printed unmodified with no marker; one whose
rendered output exceeds 250 characters is printed as exactly its first 250
characters followed by the marker. -/
theorem tool_result_truncation (tool_name tool_output : String) :
    (tool_output.length ≤ 250 →
      eventOutput true (Event.toolCallResult tool_name tool_output)
        = printLine ("✅ Tool \x27" ++ tool_name ++ "\x27 returned: " ++ tool_output)) ∧
    (tool_output.length > 250 →
      eventOutput true (Event.toolCallResult tool_name tool_output)
        = printLine ("✅ Tool \x27" ++ tool_name ++ "\x27 returned: "
            ++ (tool_output.take 250 ++ "..."))) := by
  constructor
  · intro h
    have hn : ¬ (tool_output.length > 250) := by omega
    simp [eventOutput, shortenToolOutput, hn]
  · intro h
    simp [eventOutput, shortenToolOutput, h]

set_option maxRecDepth 4000 in
/-- Witness for C2 at a 2-character and a 251-character output. -/
theorem tool_result_truncation_witness :
    (eventOutput true (Event.toolCallResult ("t") ("ok"))
      = printLine ("✅ Tool \x27t\x27 returned: " ++ "ok")) ∧
    (eventOutput true (Event.toolCallResult ("t") longOutput)
      = printLine ("✅ Tool \x27t\x27 returned: " ++ (longOutput.take 250 ++ "..."))) :=
  ⟨(tool_result_truncation ("t") ("ok")).1 (by decide),
   (tool_result_truncation ("t") longOutput).2 (by decide)⟩

/-- C5: with verbosity enabled, a Tool-Call Request is printed with the tool
name and the rendered arguments exactly as carried by the event, with no
substitution. -/
theorem tool_call_args_verbatim (tool_name tool_kwargs : String) :
    eventOutput true (Event.toolCall tool_name tool_kwargs)
      = printLine ("\n🔧 Calling tool \x27" ++ tool_name ++ "\x27 with " ++ tool_kwargs) := rfl

/-- C9: the Turn Handler is deterministic in its inputs: two runs on the same
stream and the same deferred answer produce the same observation list, the
same transcript, and the same returned result. -/
theorem turn_handler_deterministic (verbose : Bool) (stream : List StreamItem)
    (answer : Except String String) (run1 run2 : List TurnObs × Except String String)
    (h1 : run1 = handle_user_message verbose stream answer)
    (h2 : run2 = handle_user_message verbose stream answer) :
    turnTranscript run1.1 = turnTranscript run2.1 ∧ run1.1 = run2.1 ∧ run1.2 = run2.2 := by
  subst h1
  subst h2
  exact ⟨rfl, rfl, rfl⟩

/-- Witness for C9 at a concrete one-delta stream. -/
theorem turn_handler_deterministic_witness :
    turnTranscript (handle_user_message true ([StreamItem.yielded (Event.agentStream ("hi"))])
        (Except.ok ("done"))).1
      = turnTranscript (handle_user_message true ([StreamItem.yielded (Event.agentStream ("hi"))])
        (Except.ok ("done"))).1 ∧
    (handle_user_message true ([StreamItem.yielded (Event.agentStream ("hi"))])
        (Except.ok ("done"))).1
      = (handle_user_message true ([StreamItem.yielded (Event.agentStream ("hi"))])
        (Except.ok ("done"))).1 ∧
    (handle_user_message true ([StreamItem.yielded (Event.agentStream ("hi"))])
        (Except.ok ("done"))).2
      = (handle_user_message true ([StreamItem.yielded (Event.agentStream ("hi"))])
        (Except.ok ("done"))).2 :=
  turn_handler_deterministic true ([StreamItem.yielded (Event.agentStream ("hi"))])
    (Except.ok ("done")) _ _ rfl rfl

end ResumeClient

namespace ResumeClient

/-- C6: when the operator line case-insensitively equals exit or quit, the
loop terminates immediately, invoking no turn, printing nothing further, and
letting no failure escape; end-of-input and an interrupt at the prompt
likewise terminate gracefully after printing the Exiting notice. -/
theorem session_exit_paths (s : String) (rest : List ReadResult) (k : Nat)
    (turns : TurnOracle) (h : isExitLine s = true) :
    replLoop turns (ReadResult.line s :: rest) k
        = [SessionEvent.readInput, SessionEvent.exited] ∧
    replLoop turns (ReadResult.eof :: rest) k
        = [SessionEvent.readInput, SessionEvent.printed (printLine ("\nExiting...")),
           SessionEvent.exited] ∧
    replLoop turns (ReadResult.interrupt :: rest) k
        = [SessionEvent.readInput, SessionEvent.printed (printLine ("\nExiting...")),
           SessionEvent.exited] := by
  refine ⟨?_, rfl, rfl⟩
  simp [replLoop, h]

/-- Witness for C6 at the line QUIT and at a script starting with EOF or an
interrupt. -/
theorem session_exit_paths_witness :
    replLoop trivialTurns (ReadResult.line ("QUIT") :: []) 0
        = [SessionEvent.readInput, SessionEvent.exited] ∧
    replLoop trivialTurns (ReadResult.eof :: []) 0
        = [SessionEvent.readInput, SessionEvent.printed (printLine ("\nExiting...")),
           SessionEvent.exited] ∧
    replLoop trivialTurns (ReadResult.interrupt :: []) 0
        = [SessionEvent.readInput, SessionEvent.printed (printLine ("\nExiting...")),
           SessionEvent.exited] :=
  session_exit_paths ("QUIT") [] 0 trivialTurns (by decide)

/-- C7: an exception raised by the event stream propagates out of
handle_user_message after exactly the prior events' output, the await of the
Turn Result never happens and no result is returned; and the Session Loop, on
an exception escaping the turn, prints the error detail and terminates
without reading further input. -/
theorem turn_failure_ends_session (verbose : Bool) (pre : List Event) (err : String)
    (answer : Except String String) (turns : TurnOracle) (s : String)
    (rest : List ReadResult) (k : Nat)
    (hs : isExitLine s = false)
    (ht : (handle_user_message true (turns k).1 (turns k).2).2 = Except.error err) :
    handle_user_message verbose (pre.map StreamItem.yielded ++ [StreamItem.raised err]) answer
        = (pre.map (fun e => TurnObs.printed (eventOutput verbose e)), Except.error err) ∧
    replLoop turns (ReadResult.line s :: rest) k
        = [SessionEvent.readInput, SessionEvent.printed ("Agent: "),
           SessionEvent.turn s (handle_user_message true (turns k).1 (turns k).2).1,
           SessionEvent.printed (printLine ("\nAn error occurred: " ++ err)),
           SessionEvent.exited] := by
  constructor
  · simp [handle_user_message, consumeEvents_raised, -List.map_map]
  · simp [replLoop, hs, ht]

/-- Witness for C7: a stream that raises immediately, inside a session whose
first line is a normal utterance. -/
theorem turn_failure_ends_session_witness :
    handle_user_message false (([] : List Event).map StreamItem.yielded
          ++ [StreamItem.raised ("boom")]) (Except.ok (""))
        = (([] : List Event).map (fun e => TurnObs.printed (eventOutput false e)),
           Except.error ("boom")) ∧
    replLoop failingTurns (ReadResult.line ("analyze") :: []) 0
        = [SessionEvent.readInput, SessionEvent.printed ("Agent: "),
           SessionEvent.turn ("analyze")
             (handle_user_message true (failingTurns 0).1 (failingTurns 0).2).1,
           SessionEvent.printed (printLine ("\nAn error occurred: " ++ "boom")),
           SessionEvent.exited] :=
  turn_failure_ends_session false [] ("boom") (Except.ok ("")) failingTurns ("analyze") []
    0 (by decide) rfl

/-- C8 counterexample: termination triggered by the operator line exit prints
nothing at all — in particular no farewell or exit notice — before the loop
ends. -/
theorem no_farewell_on_exit_input :
    replLoop trivialTurns [ReadResult.line ("exit")] 0
        = [SessionEvent.readInput, SessionEvent.exited] ∧
    (replLoop trivialTurns [ReadResult.line ("exit")] 0).any isPrintedEvent = false := by
  decide

/-- C8 amended: an exit notice is printed on termination triggered by
end-of-input or an interrupt at the prompt; termination via an exit/quit line
prints nothing further, and termination via an exception escaping the Turn
Handler prints only the error detail, not a farewell. -/
theorem farewell_only_on_eof_or_interrupt (s err : String) (rest : List ReadResult)
    (k : Nat) (turns : TurnOracle) :
    replLoop turns (ReadResult.eof :: rest) k
        = [SessionEvent.readInput, SessionEvent.printed (printLine ("\nExiting...")),
           SessionEvent.exited] ∧
    replLoop turns (ReadResult.interrupt :: rest) k
        = [SessionEvent.readInput, SessionEvent.printed (printLine ("\nExiting...")),
           SessionEvent.exited] ∧
    (isExitLine s = true →
      replLoop turns (ReadResult.line s :: rest) k
        = [SessionEvent.readInput, SessionEvent.exited]) ∧
    (isExitLine s = false →
      (handle_user_message true (turns k).1 (turns k).2).2 = Except.error err →
      replLoop turns (ReadResult.line s :: rest) k
        = [SessionEvent.readInput, SessionEvent.printed ("Agent: "),
           SessionEvent.turn s (handle_user_message true (turns k).1 (turns k).2).1,
           SessionEvent.printed (printLine ("\nAn error occurred: " ++ err)),
           SessionEvent.exited]) := by
  refine ⟨rfl, rfl, ?_, ?_⟩
  · intro h
    simp [replLoop, h]
  · intro hs ht
    simp [replLoop, hs, ht]

/-- Witness for C8 (amended) on concrete scripts for each terminal path. -/
theorem farewell_only_on_eof_or_interrupt_witness :
    replLoop trivialTurns (ReadResult.eof :: []) 1
        = [SessionEvent.readInput, SessionEvent.printed (printLine ("\nExiting...")),
           SessionEvent.exited] ∧
    replLoop trivialTurns (ReadResult.line ("quit") :: []) 1
        = [SessionEvent.readInput, SessionEvent.exited] ∧
    replLoop failingTurns (ReadResult.line ("hello") :: []) 0
        = [SessionEvent.readInput, SessionEvent.printed ("Agent: "),
           SessionEvent.turn ("hello")
             (handle_user_message true (failingTurns 0).1 (failingTurns 0).2).1,
           SessionEvent.printed (printLine ("\nAn error occurred: " ++ "boom")),
           SessionEvent.exited] :=
  ⟨(farewell_only_on_eof_or_interrupt ("quit") ("boom") [] 1 trivialTurns).1,
   (farewell_only_on_eof_or_interrupt ("quit") ("boom") [] 1 trivialTurns).2.2.1 (by decide),
   (farewell_only_on_eof_or_interrupt ("hello") ("boom") [] 0 failingTurns).2.2.2
     (by decide) rfl⟩

/-- C10: the exit test is an exact match on the lowercased line with no
whitespace trimming: the empty line and lines with surrounding whitespace are
not exit lines and are forwarded to handle_user_message as the utterance,
while differently-cased exit and quit do terminate the loop. -/
theorem exit_test_untrimmed_exact_match (s : String) (rest : List ReadResult) (k : Nat)
    (turns : TurnOracle) (h : isExitLine s = false) :
    (isExitLine (" exit") = false ∧ isExitLine ("exit ") = false ∧
     isExitLine ("") = false ∧ isExitLine ("EXIT") = true ∧ isExitLine ("Quit") = true) ∧
    (replLoop turns (ReadResult.line s :: rest) k).take 3
        = [SessionEvent.readInput, SessionEvent.printed ("Agent: "),
           SessionEvent.turn s (handle_user_message true (turns k).1 (turns k).2).1] := by
  refine ⟨by decide, ?_⟩
  simp only [replLoop, h]
  cases hm : (handle_user_message true (turns k).1 (turns k).2).2 <;> simp [hm]

/-- Witness for C10 at the empty line, which is forwarded as an utterance. -/
theorem exit_test_untrimmed_exact_match_witness :
    (isExitLine (" exit") = false ∧ isExitLine ("exit ") = false ∧
     isExitLine ("") = false ∧ isExitLine ("EXIT") = true ∧ isExitLine ("Quit") = true) ∧
    (replLoop trivialTurns (ReadResult.line ("") :: []) 0).take 3
        = [SessionEvent.readInput, SessionEvent.printed ("Agent: "),
           SessionEvent.turn ("")
             (handle_user_message true (trivialTurns 0).1 (trivialTurns 0).2).1] :=
  exit_test_untrimmed_exact_match ("") [] 0 trivialTurns (by decide)

/-- C1 evaluated at the failing input: when build_agent raises, the
except-branch of main itself raises NameError on the undefined name
mcp_server_url, so no diagnostic line is printed, no input is read, and the
unhandled NameError escapes main instead of a graceful return. -/
theorem startup_failure_raises_name_error :
    startupExceptHandler ("ConnectionError: All connection attempts failed")
        = Except.error ("NameError: name \x27mcp_server_url\x27 is not defined") ∧
    mainRun (Except.error ("ConnectionError: All connection attempts failed")) trivialTurns []
        = [SessionEvent.crashed ("NameError: name \x27mcp_server_url\x27 is not defined")] := by
  constructor <;> rfl

end ResumeClient
